import Mathlib

/-!
Verification of the steam-user-count fetch/format/write tool (src/main.py).

The program is a single-shot pipeline: fetch JSON chart data over HTTP,
normalize each (timestamp, count) pair into (timestamp, UTC datetime string,
count), and write the rows to a CSV file.  The embedding below translates each
source function into a pure Lean function; the process environment (network
response, file-system write outcome) is passed in explicitly, and printed
output plus exit status are returned as values.
-/

/-- JSON values as parsed from the HTTP response body by response.json().
Numbers are modelled as integers, which covers every payload the program's
documented behaviour is about. -/
inductive Json where
  | null : Json
  | bool : Bool → Json
  | num : Int → Json
  | str : String → Json
  | arr : List Json → Json
  | obj : List (String × Json) → Json
deriving Repr

/-- Shape dispatch of fetch_chart_data on the parsed JSON body
(src/main.py lines 25-30): a list is returned as is; a mapping containing a
"data" key yields the value stored under that key; anything else raises
ValueError("Unexpected data format from SteamCharts.").  The surrounding HTTP
request is part of the environment and is modelled in Env below. -/
def fetch_chart_data (body : Json) : Except String Json :=
  match body with
  | Json.arr xs => Except.ok (Json.arr xs)
  | Json.obj fields =>
      match fields.lookup "data" with
      | some v => Except.ok v
      | none => Except.error "Unexpected data format from SteamCharts."
  | _ => Except.error "Unexpected data format from SteamCharts."

/-- Timestamp normalization inside format_data (src/main.py lines 42-43).
Python's test timestamp > 1e12 compares the integer exactly against 10^12
(1e12 is an exactly representable float), and timestamp //= 1000 is floor
division, written here as Int.fdiv. -/
def normalizeTimestamp (timestamp : Int) : Int :=
  if timestamp > 1000000000000 then Int.fdiv timestamp 1000 else timestamp

/-- Left-pad the decimal rendering of a natural number with zeros to the given
width, as strftime does for its numeric fields. -/
def padNum (width : Nat) (n : Nat) : String :=
  let s := toString n
  if s.length < width then String.mk (List.replicate (width - s.length) '0') ++ s
  else s

/-- Calendar date (year, month, day) of the day lying the given number of days
after 1970-01-01 in the proleptic Gregorian calendar; this is the date part
computed by Python's datetime.fromtimestamp with timezone.utc. -/
def civilFromDays (days : Int) : Int × Nat × Nat :=
  let z : Int := days + 719468
  let era : Int := Int.fdiv z 146097
  let doe : Nat := (z - era * 146097).toNat
  let yoe : Nat := (doe - doe / 1460 + doe / 36524 - doe / 146096) / 365
  let doy : Nat := doe - (365 * yoe + yoe / 4 - yoe / 100)
  let mp : Nat := (5 * doy + 2) / 153
  let d : Nat := doy - (153 * mp + 2) / 5 + 1
  let m : Nat := if mp < 10 then mp + 3 else mp - 9
  let y : Int := (yoe : Int) + era * 400 + (if m ≤ 2 then 1 else 0)
  (y, m, d)

/-- UTC datetime string in the fixed format YYYY-MM-DD HH:MM:SS, modelling
datetime.fromtimestamp(timestamp, timezone.utc).strftime("%Y-%m-%d %H:%M:%S")
(src/main.py line 44). -/
def utcDatetimeString (timestamp : Int) : String :=
  let days : Int := Int.fdiv timestamp 86400
  let sod : Nat := (timestamp - days * 86400).toNat
  let ymd := civilFromDays days
  let yearStr :=
    if ymd.1 < 0 then "-" ++ padNum 4 (-ymd.1).toNat else padNum 4 ymd.1.toNat
  yearStr ++ "-" ++ padNum 2 ymd.2.1 ++ "-" ++ padNum 2 ymd.2.2 ++ " " ++
    padNum 2 (sod / 3600) ++ ":" ++ padNum 2 (sod % 3600 / 60) ++ ":" ++
    padNum 2 (sod % 60)

/-- Result of one iteration of the loop body of format_data for one
(timestamp, count) pair: the normalized timestamp, its UTC rendering, and the
unchanged player count (src/main.py lines 40-45). -/
def formatSample (sample : Int × Int) : Int × String × Int :=
  let t := normalizeTimestamp sample.1
  (t, utcDatetimeString t, sample.2)

/-- format_data (src/main.py lines 35-46): walk the raw samples in order,
normalize each timestamp, render it as a UTC datetime string, pass the player
count through, and append the results in the same order. -/
def format_data : List (Int × Int) → List (Int × String × Int)
  | [] => []
  | sample :: rest => formatSample sample :: format_data rest

/-- Minimal quoting of one CSV field as done by csv.writer's default dialect:
a field containing a comma, a double quote, or a line break is wrapped in
double quotes with inner double quotes doubled; any other field is written
verbatim. -/
def csvQuote (field : String) : String :=
  if field.toList.any (fun c => c == ',' || c == '"' || c == '\r' || c == '\n') then
    "\"" ++
      String.join (field.toList.map
        (fun c => if c == '"' then "\"\"" else String.singleton c)) ++ "\""
  else field

/-- One CSV row: the fields, quoted as needed, joined by commas and terminated
by the \r\n line terminator of csv.writer's default dialect. -/
def csvRow (fields : List String) : String :=
  String.intercalate "," (fields.map csvQuote) ++ "\r\n"

/-- Text written by writer.writerows(data) in save_to_csv: one CSV row per
formatted sample, in the order of the input list. -/
def csvDataRows : List (Int × String × Int) → String
  | [] => ""
  | row :: rest => csvRow [toString row.1, row.2.1, toString row.2.2] ++ csvDataRows rest

/-- Content of the file produced by save_to_csv (src/main.py lines 50-61).
The destination is opened with mode "w" (created, or truncated if present) and
encoding utf-8, and receives the fixed header row followed by the data rows;
the model returns the full text written. -/
def save_to_csv (data : List (Int × String × Int)) : String :=
  csvRow ["Timestamp", "Datetime (UTC)", "PlayerCount"] ++ csvDataRows data

/-- Unpack one JSON array element as a (timestamp, count) pair, modelling the
tuple destructuring performed by the for loop of format_data on the value that
fetch_chart_data returned; any other element shape raises at run time. -/
def sampleOfJson : Json → Except String (Int × Int)
  | Json.arr [Json.num t, Json.num c] => Except.ok (t, c)
  | _ => Except.error "cannot unpack sample"

/-- Unpack every element of a JSON array into (timestamp, count) pairs,
stopping at the first element that fails to unpack. -/
def samplesOfList : List Json → Except String (List (Int × Int))
  | [] => Except.ok []
  | e :: rest =>
      match sampleOfJson e with
      | Except.error err => Except.error err
      | Except.ok p =>
          match samplesOfList rest with
          | Except.error err => Except.error err
          | Except.ok ps => Except.ok (p :: ps)

/-- Interpret the JSON value returned by fetch_chart_data as a list of raw
samples, as the loop of format_data does when main feeds the fetched value to
it; a non-list value raises at run time. -/
def toSamples : Json → Except String (List (Int × Int))
  | Json.arr elems => samplesOfList elems
  | _ => Except.error "fetched data is not a list of samples"

/-- Environment of one program run: the outcome of the HTTP request (a network
or HTTP-status error message, or the parsed JSON body) and the outcome of
writing the output file (some error message, or none when the write succeeds). -/
structure Env where
  response : Except String Json
  writeFailure : Option String

/-- The try block of main (src/main.py lines 71-76): fetch, format, and save in
sequence, each step propagating its failure; on success the result is the
output filename steamcharts_{app_id}.csv together with the file content
written by save_to_csv. -/
def runPipeline (appId : String) (env : Env) : Except String (String × String) :=
  match env.response with
  | Except.error e => Except.error e
  | Except.ok body =>
      match fetch_chart_data body with
      | Except.error e => Except.error e
      | Except.ok raw =>
          match toSamples raw with
          | Except.error e => Except.error e
          | Except.ok samples =>
              match env.writeFailure with
              | some e => Except.error e
              | none =>
                  Except.ok ("steamcharts_" ++ appId ++ ".csv",
                    save_to_csv (format_data samples))

namespace SteamCharts

/-- main (src/main.py lines 64-79), as a function from the positional
command-line arguments (sys.argv without the program name) and the run
environment to the lines printed on standard output and the process exit
status.  The function returns exactly one outcome: the process terminates
after reporting, with no retry and no partial-success path. -/
def main (args : List String) (env : Env) : List String × Nat :=
  match args with
  | [appId] =>
      match runPipeline appId env with
      | Except.ok (filename, _content) => (["Data saved to " ++ filename], 0)
      | Except.error e => (["Error: " ++ e], 1)
  | _ => (["Usage: python steamcharts_to_csv.py <app_id>"], 1)

end SteamCharts

/-- Helper: format_data is the elementwise map of formatSample over the input. -/
lemma format_data_eq_map (xs : List (Int × Int)) : format_data xs = xs.map formatSample := by
  induction xs with
  | nil => rfl
  | cons s t ih => simp [format_data, ih]

/-- Helper: String.join distributes over cons. -/
lemma string_join_cons (s : String) (l : List String) :
    String.join (s :: l) = s ++ String.join l := by
  rw [String.join_eq, String.join_eq]
  cases s with
  | mk d => rfl

/-- Helper: the recursive data-row writer equals the join of the per-sample rows. -/
lemma csvDataRows_eq_join (data : List (Int × String × Int)) :
    csvDataRows data =
      String.join (data.map (fun row => csvRow [toString row.1, row.2.1, toString row.2.2])) := by
  induction data with
  | nil => rfl
  | cons row rest ih => rw [List.map_cons, string_join_cons, csvDataRows, ih]

/-- Helper: whenever the pipeline succeeds, the filename it reports is
steamcharts_{app_id}.csv. -/
lemma runPipeline_ok_shape (appId : String) (env : Env) (pr : String × String)
    (h : runPipeline appId env = Except.ok pr) :
    pr.1 = "steamcharts_" ++ appId ++ ".csv" := by
  unfold runPipeline at h
  split at h
  · exact absurd h (by simp)
  · split at h
    · exact absurd h (by simp)
    · split at h
      · exact absurd h (by simp)
      · split at h
        · exact absurd h (by simp)
        · cases h; rfl

/-- C1: the Formatter returns a list of exactly the same length as its input,
and the i-th formatted sample is derived (by formatSample) from the i-th raw
sample: no drops, no duplicates, no reordering. -/
theorem format_data_preserves_length_and_order (xs : List (Int × Int)) :
    (format_data xs).length = xs.length ∧
    ∀ i : Nat, (format_data xs).get? i = (xs.get? i).map formatSample := by
  refine ⟨?_, fun i => ?_⟩ <;> simp [format_data_eq_map]

/-- C2: the Formatter normalizes a timestamp by integer-dividing it by 1000
exactly when its value strictly exceeds 10^12 and passing it through otherwise;
in particular 1700000000 is unchanged and 1700000000000 becomes 1700000000. -/
theorem normalizeTimestamp_threshold :
    (∀ timestamp : Int,
        normalizeTimestamp timestamp =
          if timestamp > 1000000000000 then Int.fdiv timestamp 1000 else timestamp) ∧
    normalizeTimestamp 1700000000 = 1700000000 ∧
    normalizeTimestamp 1700000000000 = 1700000000 :=
  ⟨fun _ => rfl, by decide, by decide⟩

/-- C3: the Fetcher's shape dispatch: a JSON sequence is returned directly; a
mapping containing a "data" key yields the value under that key; every other
parsed value (including a mapping without a "data" key) fails with the
ValueError that realizes the spec's FormatError. -/
theorem fetch_chart_data_shape_dispatch :
    (∀ xs : List Json, fetch_chart_data (Json.arr xs) = Except.ok (Json.arr xs)) ∧
    (∀ (fields : List (String × Json)) (v : Json),
        fields.lookup "data" = some v →
        fetch_chart_data (Json.obj fields) = Except.ok v) ∧
    (∀ body : Json,
        (∀ xs, body ≠ Json.arr xs) →
        (∀ fields, body = Json.obj fields → fields.lookup "data" = none) →
        fetch_chart_data body = Except.error "Unexpected data format from SteamCharts.") := by
  refine ⟨fun xs => rfl, fun fields v h => ?_, fun body h1 h2 => ?_⟩
  · simp [fetch_chart_data, h]
  · cases body with
    | arr xs => exact absurd rfl (h1 xs)
    | obj fields => simp [fetch_chart_data, h2 fields rfl]
    | null => rfl
    | bool b => rfl
    | num n => rfl
    | str s => rfl

/-- Witness for C3: each branch of the dispatch at a concrete input. -/
theorem fetch_chart_data_shape_dispatch_witness :
    fetch_chart_data (Json.arr []) = Except.ok (Json.arr []) ∧
    fetch_chart_data (Json.obj [("data", Json.num 5)]) = Except.ok (Json.num 5) ∧
    fetch_chart_data Json.null = Except.error "Unexpected data format from SteamCharts." :=
  ⟨fetch_chart_data_shape_dispatch.1 [],
   fetch_chart_data_shape_dispatch.2.1 [("data", Json.num 5)] (Json.num 5) rfl,
   fetch_chart_data_shape_dispatch.2.2 Json.null (fun _ h => Json.noConfusion h)
     (fun _ h => Json.noConfusion h)⟩

/-- C4: the Formatter renders the normalized timestamp as a UTC calendar
datetime in the fixed format YYYY-MM-DD HH:MM:SS; in particular the raw sample
(1700000000, 42) maps to (1700000000, "2023-11-14 22:13:20", 42). -/
theorem format_data_renders_utc :
    (∀ ts c : Int, format_data [(ts, c)] =
        [(normalizeTimestamp ts, utcDatetimeString (normalizeTimestamp ts), c)]) ∧
    format_data [(1700000000, 42)] = [(1700000000, "2023-11-14 22:13:20", 42)] :=
  ⟨fun _ _ => rfl, by rfl⟩

/-- C5: the Writer produces the fixed header row with fields Timestamp,
Datetime (UTC), PlayerCount followed by exactly one comma-separated row per
formatted sample, in input order; shown in general and at a concrete sample. -/
theorem save_to_csv_header_and_rows :
    (∀ data : List (Int × String × Int),
        save_to_csv data =
          "Timestamp,Datetime (UTC),PlayerCount\r\n" ++
            String.join (data.map
              (fun row => csvRow [toString row.1, row.2.1, toString row.2.2]))) ∧
    save_to_csv [(1700000000, "2023-11-14 22:13:20", 42)] =
      "Timestamp,Datetime (UTC),PlayerCount\r\n" ++
        "1700000000,2023-11-14 22:13:20,42\r\n" := by
  constructor
  · intro data
    simp only [save_to_csv, csvDataRows_eq_join]
    rfl
  · rfl

/-- C6: on every run with exactly one argument, either the pipeline fails and
main prints Error: followed by the message and exits with status 1, or the
pipeline succeeds, the output file is steamcharts_{app_id}.csv, and main
prints Data saved to that filename and exits with status 0; main returns
exactly one outcome, so the process always terminates after reporting. -/
theorem main_reports_outcome_and_exits (appId : String) (env : Env) :
    (∃ e, runPipeline appId env = Except.error e ∧
        SteamCharts.main [appId] env = (["Error: " ++ e], 1)) ∨
    (∃ content,
        runPipeline appId env = Except.ok ("steamcharts_" ++ appId ++ ".csv", content) ∧
        SteamCharts.main [appId] env =
          (["Data saved to " ++ ("steamcharts_" ++ appId ++ ".csv")], 0)) := by
  cases hr : runPipeline appId env with
  | error e => exact Or.inl ⟨e, rfl, by simp [SteamCharts.main, hr]⟩
  | ok pr =>
      have hf := runPipeline_ok_shape appId env pr hr
      refine Or.inr ⟨pr.2, ?_, ?_⟩
      · rw [← hf]
      · simp [SteamCharts.main, hr, hf]

/-- C7: with an argument count different from one, main prints the usage
message and exits with status 1, for every environment: the outcome does not
depend on the network response, so no network call is observable. -/
theorem main_usage_error (args : List String) (env : Env) (h : args.length ≠ 1) :
    SteamCharts.main args env = (["Usage: python steamcharts_to_csv.py <app_id>"], 1) := by
  cases args with
  | nil => rfl
  | cons a t =>
      cases t with
      | nil => exact absurd rfl h
      | cons b t2 => rfl

/-- Witness for C7: zero arguments, adversarial environment. -/
theorem main_usage_error_witness :
    SteamCharts.main [] (Env.mk (Except.error "network unreachable") none) =
      (["Usage: python steamcharts_to_csv.py <app_id>"], 1) :=
  main_usage_error [] (Env.mk (Except.error "network unreachable") none) (by decide)

/-- C8: the Formatter is a pure function of its input, so running it twice on
the same input yields identical output. -/
theorem format_data_deterministic (xs : List (Int × Int)) :
    format_data xs = format_data xs := rfl

/-- C9: a mapping containing the key data has the stored value returned as is,
with no validation that it is a sequence of pairs: no error is raised even for
a null or numeric value. -/
theorem fetch_returns_data_value_unvalidated (fields : List (String × Json)) (v : Json)
    (h : fields.lookup "data" = some v) :
    fetch_chart_data (Json.obj fields) = Except.ok v := by
  simp [fetch_chart_data, h]

/-- Witness for C9: a mapping whose data value is null is returned as is. -/
theorem fetch_returns_data_value_unvalidated_witness :
    fetch_chart_data (Json.obj [("data", Json.null)]) = Except.ok Json.null :=
  fetch_returns_data_value_unvalidated [("data", Json.null)] Json.null rfl

/-- C10: millisecond normalization divides exactly once: for every timestamp
above 10^12 the result is the single quotient by 1000, even when that quotient
itself still exceeds 10^12. -/
theorem normalizeTimestamp_divides_once (t : Int) (h : 1000000000000 < t) :
    normalizeTimestamp t = Int.fdiv t 1000 := by
  simp [normalizeTimestamp, h]

/-- Witness for C10: a microsecond-scale timestamp is divided only once, and
the quotient still exceeds the threshold. -/
theorem normalizeTimestamp_divides_once_witness :
    normalizeTimestamp 1700000000000000 = 1700000000000 ∧
    1000000000000 < (1700000000000 : Int) := by
  refine ⟨?_, by decide⟩
  rw [normalizeTimestamp_divides_once 1700000000000000 (by decide)]
  decide
